import Mathlib

/-!
Verification of the ecom-scraper-demo pipeline (`src/webscraper` and
`src/main.py`) against its natural-language specification.

The Python source is shallowly embedded: pure helpers become Lean
functions, the orchestration loop of `make_requests` becomes a fold over
the completion trace of its tasks, SQLite persistence becomes an explicit
table-state transformer, and Python exceptions become `Except` /
explicit error values.
-/

namespace Webscraper

/-- Kinds of Python built-in exceptions distinguished by this code base:
`utils.flatten` raises `ValueError`; the specification speaks of a
"type error" (`TypeError`), so the two kinds are modelled separately. -/
inductive PyError where
  | typeError (msg : String)
  | valueError (msg : String)
  deriving DecidableEq, Repr

/-- Holds (`true`) exactly on the `typeError` kind. -/
def PyError.isTypeError : PyError → Bool
  | .typeError _ => true
  | .valueError _ => false

/-- A Python object as seen by `utils.flatten`: either a `list` of
elements of `α`, or any non-list value (`isinstance(x, list)` is false). -/
inductive PyObj (α : Type) where
  | lst (xs : List α)
  | nonList
  deriving DecidableEq, Repr

/-- Test `isinstance(sublist, list)` for a `PyObj`. -/
def PyObj.isList {α : Type} : PyObj α → Bool
  | .lst _ => true
  | .nonList => false

/-- The elements of a `PyObj` known to be a list (used only after the
`isinstance` guard of `flatten` has passed). -/
def PyObj.items {α : Type} : PyObj α → List α
  | .lst xs => xs
  | .nonList => []

/-- Model of `flatten` from `src/webscraper/utils.py`:
```
if not all(isinstance(sublist, list) for sublist in list_of_lists):
    raise ValueError("All elements of the input must be of type list.")
return [item for sublist in list_of_lists for item in sublist]
```
If every element is a list, the comprehension concatenates the sublists
in order; otherwise a `ValueError` is raised. -/
def flatten {α : Type} (list_of_lists : List (PyObj α)) : Except PyError (List α) :=
  if list_of_lists.all PyObj.isList then
    .ok (list_of_lists.map PyObj.items).flatten
  else
    .error (.valueError "All elements of the input must be of type list.")

/-- The outcome with which one task created by `make_requests`
(`src/webscraper/asyncio.py:285-287`) completes: the wrapped
`retry` call either returned a list of records, raised `TooManyRetries`,
or the task ended with some other exception. -/
inductive TaskOutcome (β : Type) where
  | success (records : List β)
  | tooManyRetries
  | otherError
  deriving DecidableEq, Repr

/-- Holds (`true`) exactly on `success`. -/
def TaskOutcome.isSuccess {β : Type} : TaskOutcome β → Bool
  | .success _ => true
  | _ => false

/-- Holds (`true`) exactly on `tooManyRetries`. -/
def TaskOutcome.isTooMany {β : Type} : TaskOutcome β → Bool
  | .tooManyRetries => true
  | _ => false

/-- Holds (`true`) exactly on `otherError`. -/
def TaskOutcome.isOtherError {β : Type} : TaskOutcome β → Bool
  | .otherError => true
  | _ => false

/-- A completion trace of a `make_requests` run: the tasks in the order
the reducer loop (`asyncio.wait` + the `for task in done` loop,
`src/webscraper/asyncio.py:288-305`) observes them finish, each paired
with its parameters. The order is an arbitrary interleaving parameter:
every concurrent schedule corresponds to some trace. -/
abbrev Trace (α β : Type) : Type := List (α × TaskOutcome β)

/-- The mutable state of the `make_requests` reducer loop:
`results` (the in-memory buffer of per-task record lists), `failed`,
`succeeded`, plus the ghost field `flushes` recording, for each
`table_handler.insert_into(flatten(results))` call, the buffer contents
it flushed (`src/webscraper/asyncio.py:272-274,299-310`). -/
structure RunState (α β : Type) where
  results : List (List β)
  failed : List α
  succeeded : Nat
  flushes : List (List (List β))
  deriving DecidableEq, Repr

/-- Initial reducer state: `results = []`, `failed = []`, `succeeded = 0`, no flushes yet. -/
def initState (α β : Type) : RunState α β := ⟨[], [], 0, []⟩

/-- One iteration of the `for task in done` loop of `make_requests`
(`src/webscraper/asyncio.py:292-305`): a `TooManyRetries` failure appends
the task's params to `failed`; any other exception is silently skipped
(no branch handles it); a successful task appends its record list to
`results`, and once `len(results) >= BATCH_SIZE` the buffer is flushed
(`insert_into(flatten(results))`), `succeeded` grows by `len(results)`,
and the buffer is cleared. -/
def processTask {α β : Type} (bs : Nat) (s : RunState α β) (t : α × TaskOutcome β) :
    RunState α β :=
  match t.2 with
  | .tooManyRetries => { s with failed := s.failed ++ [t.1] }
  | .otherError => s
  | .success recs =>
      if bs ≤ (s.results ++ [recs]).length then
        { results := [], failed := s.failed,
          succeeded := s.succeeded + (s.results ++ [recs]).length,
          flushes := s.flushes ++ [s.results ++ [recs]] }
      else
        { s with results := s.results ++ [recs] }

/-- The reducer loop of `make_requests` over a whole completion trace. -/
def runLoop {α β : Type} (bs : Nat) (trace : Trace α β) : RunState α β :=
  trace.foldl (processTask bs) (initState α β)

/-- The epilogue of `make_requests` (`src/webscraper/asyncio.py:306-310`):
`if len(results) > 0`, flush the remainder and add `len(results)` to
`succeeded`. -/
def finalFlush {α β : Type} (s : RunState α β) : RunState α β :=
  if 0 < s.results.length then
    { results := [], failed := s.failed, succeeded := s.succeeded + s.results.length,
      flushes := s.flushes ++ [s.results] }
  else s

/-- Constant `BATCH_SIZE` from `src/webscraper/_constants.py`. -/
def BATCH_SIZE : Nat := 10000

/-- Model of `make_requests` (`src/webscraper/asyncio.py:228-311`) as a function of
the completion trace: run the reducer loop, then the final partial flush.
The returned `RunState` carries the returned pair
`(succeeded, failed)` together with the ghost flush log. -/
def make_requests {α β : Type} (trace : Trace α β) : RunState α β :=
  finalFlush (runLoop BATCH_SIZE trace)

/-- The parameters of the tasks of a trace that completed with
`TooManyRetries`, in completion order. -/
def failedParams {α β : Type} (trace : Trace α β) : List α :=
  trace.filterMap (fun t => if t.2.isTooMany then some t.1 else none)

/-- The record lists of the tasks of a trace that completed successfully,
in completion order. -/
def successLists {α β : Type} (trace : Trace α β) : List (List β) :=
  trace.filterMap (fun t =>
    match t.2 with
    | .success recs => some recs
    | _ => none)

/-- The number of tasks of a trace that completed successfully. -/
def successCount {α β : Type} (trace : Trace α β) : Nat :=
  (trace.filter (fun t => t.2.isSuccess)).length

/-- The buffer entries contributed by one task outcome: a successful
task contributes its record list, a failed one contributes nothing. -/
def TaskOutcome.recordsOf {β : Type} : TaskOutcome β → List (List β)
  | .success recs => [recs]
  | _ => []

/-- Total number of records handed to the Batch Sink across all
`insert_into(flatten(results))` calls of a run: each flush delivers the
flattening of the buffer it flushed. -/
def recordsDelivered {α β : Type} (s : RunState α β) : Nat :=
  (s.flushes.map (fun f => f.flatten.length)).sum

/-- An exception escaping a `retry` call: either the `TooManyRetries`
defined in `src/webscraper/asyncio.py:16-33` (carrying the `params` of
the coroutine), or — hypothetically — one of the transient errors raised
by the wrapped coroutine. The model keeps the transient alternative in
the type so that "the underlying error never leaks" is a statement, not
a typing accident. -/
inductive RetryExc (α ε : Type) where
  | tooManyRetries (params : α)
  | transient (e : ε)
  deriving DecidableEq, Repr

deriving instance DecidableEq for Except

/-- Observable behaviour of one `retry(...)` call
(`src/webscraper/asyncio.py:36-86`): its result (or raised exception),
the list of `asyncio.sleep` durations in order, and how many times the
wrapped coroutine was invoked. -/
structure RetryTrace (α ε ρ : Type) where
  result : Except (RetryExc α ε) ρ
  waits : List ℚ
  attemptsMade : Nat
  deriving DecidableEq, Repr

/-- The loop of `retry` (`src/webscraper/asyncio.py:79-86`):
```
retry_interval = 0.0
for i in range(max_retries):
    try:
        return await asyncio.wait_for(coro(params), timeout=timeout)
    except Exception:
        await asyncio.sleep(retry_interval)
        retry_interval = backoff_factor * (2**i)
raise TooManyRetries(params)
```
The attempt oracle gives attempt `i`'s outcome; a `wait_for` timeout is
one of the possible transient errors `ε`, so the `timeout` argument is
folded into the oracle. Note the source sleeps the *current*
`retry_interval` and only afterwards updates it to
`backoff_factor * 2**i`. Arguments: current attempt index `i`, remaining
loop iterations, current `retry_interval`, sleeps so far, invocations so
far. -/
def retryAux {α ε ρ : Type} (attempt : Nat → Except ε ρ) (params : α)
    (backoff_factor : ℚ) :
    Nat → Nat → ℚ → List ℚ → Nat → RetryTrace α ε ρ
  | _, 0, _, waits, made => ⟨.error (.tooManyRetries params), waits, made⟩
  | i, rem + 1, interval, waits, made =>
      match attempt i with
      | .ok r => ⟨.ok r, waits, made + 1⟩
      | .error _ =>
          retryAux attempt params backoff_factor (i + 1) rem
            (backoff_factor * 2 ^ i) (waits ++ [interval]) (made + 1)

/-- Model of `retry` (`src/webscraper/asyncio.py:36-86`): run the loop
from attempt `0` with `retry_interval = 0.0`, no sleeps and no
invocations yet. -/
def retry {α ε ρ : Type} (attempt : Nat → Except ε ρ) (params : α)
    (max_retries : Nat) (backoff_factor : ℚ) : RetryTrace α ε ρ :=
  retryAux attempt params backoff_factor 0 max_retries 0 [] 0

/-- The sleep durations produced by the loop of `retry` from attempt
index `i` onwards when the incoming `retry_interval` is `v` and the next
`rem` attempts all fail: the current interval first, then
`backoff_factor * 2^j` for `j = i, i+1, ...`. -/
def tailWaits (b v : ℚ) (i : Nat) : Nat → List ℚ
  | 0 => []
  | m + 1 => v :: (List.range' i m).map (fun j => b * 2 ^ j)

/-- The sleep durations of a fresh `retry` call whose first `n` attempts
all fail: no sleep for `n = 0`; otherwise a sleep of `0.0` after the
first failure, then `backoff_factor * 2^j` for `j = 0, ..., n-2`. -/
def failWaits (b : ℚ) : Nat → List ℚ
  | 0 => []
  | m + 1 => 0 :: (List.range m).map (fun j => b * 2 ^ j)

/-- Schema of one SQLite table as declared in
`src/webscraper/_constants.py`: the declared column names in order, and
the position of the `PRIMARY KEY` column. Cell values are abstracted to
`Int` (standing in for both the INTEGER and TEXT affinities). -/
structure TableSchema where
  cols : List String
  pkIdx : Nat
  deriving DecidableEq, Repr

/-- A stored row: the cell values in column order. -/
abbrev Row : Type := List Int

/-- A Python record dict as passed to `TableHandler.insert_into`: field
names paired with values, in insertion order. -/
abbrev Record : Type := List (String × Int)

/-- Projection `tuple(c.values())` used at
`src/webscraper/database.py:101`: the record's values in field order,
its field names discarded. -/
def recordValues (r : Record) : Row :=
  r.map Prod.snd

/-- The error raised by `sqlite3` when `executemany` is given a tuple
whose arity differs from the number of `?` placeholders
(`sqlite3.ProgrammingError`). -/
inductive DbError where
  | programmingError
  deriving DecidableEq, Repr

/-- Effect of one `INSERT OR REPLACE INTO ... VALUES (?...)` binding
(`src/webscraper/database.py:98-102`): any stored row with the same
primary-key value is replaced by the new row (SQLite REPLACE deletes the
conflicting row and inserts the new one); modelled from SQLite's
documented conflict-resolution semantics. -/
def insertRow (schema : TableSchema) (t : List Row) (v : Row) : List Row :=
  t.filter (fun row => row.get? schema.pkIdx != v.get? schema.pkIdx) ++ [v]

/-- Model of `cursor.executemany` over the bound tuples
(`src/webscraper/database.py:98-102`): bind each tuple in order; a tuple
whose arity differs from the number of placeholders (`len(columns)`)
raises `ProgrammingError`, aborting the statement. -/
def executeMany (schema : TableSchema) : List Row → List Row → Except DbError (List Row)
  | t, [] => .ok t
  | t, v :: vs =>
      if v.length = schema.cols.length then
        executeMany schema (insertRow schema t v) vs
      else
        .error .programmingError

/-- Model of `TableHandler.insert_into` (`src/webscraper/database.py:78-103`):
read the declared columns (`PRAGMA table_info`), build an
`INSERT OR REPLACE` with one `?` per column, and `executemany` it over
`[tuple(c.values()) for c in data]` inside `with self._connect() as conn`.
The context manager commits on success and rolls back on an exception, so
on error no rows are persisted (the caller's table state stands). -/
def insert_into (schema : TableSchema) (t : List Row) (data : List Record) :
    Except DbError (List Row) :=
  executeMany schema t (data.map recordValues)

/-- Reading a whole table back as records
(`to_pandas().to_dict("records")`, `src/main.py:42,55`): each stored row
becomes a dict keyed by the declared column names. -/
def reload (schema : TableSchema) (t : List Row) : List Record :=
  t.map (fun row => schema.cols.zip row)

/-- Schema `CATEGORIES_TABLE` of `src/webscraper/_constants.py:50-56`:
`id` is the `PRIMARY KEY`. -/
def CATEGORIES_TABLE : TableSchema :=
  ⟨["id", "gender", "category", "subcategory", "base_url"], 0⟩

/-- Schema `PAGES_URLS_TABLE` of `src/webscraper/_constants.py:58-61`:
`page_url` is the `PRIMARY KEY`. -/
def PAGES_URLS_TABLE : TableSchema :=
  ⟨["id", "page_url"], 1⟩

/-- Schema `ARTICLES_URLS_TABLE` of `src/webscraper/_constants.py:63-67`:
`article_url` is the `PRIMARY KEY`. -/
def ARTICLES_URLS_TABLE : TableSchema :=
  ⟨["id", "page_url", "article_url"], 2⟩

/-- Schema `ARTICLES_DATA_TABLE` of `src/webscraper/_constants.py:69-77`:
`article_url` is the `PRIMARY KEY`. -/
def ARTICLES_DATA_TABLE : TableSchema :=
  ⟨["id", "article_url", "description", "colour", "tags", "materials", "images_urls"],
    1⟩

/-- The rows of the four tables of the SQLite database
(`DB_SCHEMA`, `src/webscraper/database.py:15-20`). -/
structure DbState where
  categories : List Row
  pages_urls : List Row
  articles_urls : List Row
  articles_data : List Row
  deriving DecidableEq, Repr

/-- Applying the flush log of one `make_requests` run to its table:
each `insert_into(flatten(results))` call persists the flattening of the
flushed buffer, in flush order; a failure propagates
(`src/webscraper/asyncio.py:301,308`). -/
def applyFlushes (schema : TableSchema) :
    List Row → List (List (List Record)) → Except DbError (List Row)
  | t, [] => .ok t
  | t, f :: fs =>
      match insert_into schema t f.flatten with
      | .ok t' => applyFlushes schema t' fs
      | .error e => .error e

/-- What one stage of `scrape_ecommerce_site` did: the WorkItems it
passed to `make_requests` and the `failed` list it got back (logged at
`src/main.py:37-38,50-51,63-64` but never re-raised). -/
structure StageReport where
  items : List Record
  failed : List Record
  deriving DecidableEq, Repr

/-- Everything observable of one `scrape_ecommerce_site` run: the final
database and the three `make_requests` stage reports. -/
structure ScrapeResult where
  db : DbState
  stage2 : StageReport
  stage3 : StageReport
  stage4 : StageReport
  deriving DecidableEq, Repr

/-- Model of `scrape_ecommerce_site` (`src/main.py:21-65`).
Inputs: the initial database contents, the categories returned by
`extract_categories_urls()`, and for each of the three `make_requests`
stages a function giving the completion trace for the stage's item list
(the extractor behaviour and completion order are environment
parameters). Steps, exactly as in the source:
stage 1 inserts `categories` into the `categories` table; stage 2 runs
`make_requests(compile_page_urls, categories, ...)` — its items are the
in-memory `categories` list; stage 3 reloads
`pages_urls_table.to_pandas().to_dict("records")` and runs on those;
stage 4 reloads the `articles_urls` table likewise. Each stage's
`failed` list is only logged; no stage aborts the run. -/
def scrape_ecommerce_site (db0 : DbState) (categories : List Record)
    (t2 t3 t4 : List Record → Trace Record Record) :
    Except DbError ScrapeResult := do
  let catRows ← insert_into CATEGORIES_TABLE db0.categories categories
  let r2 := make_requests (t2 categories)
  let pagesRows ← applyFlushes PAGES_URLS_TABLE db0.pages_urls r2.flushes
  let pagesItems := reload PAGES_URLS_TABLE pagesRows
  let r3 := make_requests (t3 pagesItems)
  let artUrlRows ← applyFlushes ARTICLES_URLS_TABLE db0.articles_urls r3.flushes
  let artItems := reload ARTICLES_URLS_TABLE artUrlRows
  let r4 := make_requests (t4 artItems)
  let artDataRows ← applyFlushes ARTICLES_DATA_TABLE db0.articles_data r4.flushes
  return ⟨⟨catRows, pagesRows, artUrlRows, artDataRows⟩,
    ⟨categories, r2.failed⟩, ⟨pagesItems, r3.failed⟩, ⟨artItems, r4.failed⟩⟩

/-- Phase of one `make_requests` task in the cooperative scheduler:
created by `asyncio.create_task` but not yet holding a semaphore slot;
inside `async with semaphore` executing its whole unit of work (the
`retry` call with all its attempts); or finished with some outcome. -/
inductive TaskPhase where
  | waiting
  | running
  | done (o : TaskOutcome Unit)
  deriving DecidableEq, Repr

/-- Holds (`true`) exactly on the `running` phase. -/
def TaskPhase.isRunning : TaskPhase → Bool
  | .running => true
  | _ => false

/-- Holds (`true`) exactly on the `done` phase. -/
def TaskPhase.isDone : TaskPhase → Bool
  | .done _ => true
  | _ => false

/-- State of the concurrency structure of `make_requests`: one phase per
created task, and the `asyncio.Semaphore`'s internal counter
(`asyncio.Semaphore(concurrency_limit)`,
`src/webscraper/asyncio.py:275`). -/
structure SchedState where
  phases : List TaskPhase
  avail : Nat
  deriving DecidableEq, Repr

/-- The state right after `src/webscraper/asyncio.py:285-287`: one task
is created per work item — all of them immediately, scheduling is not
throttled — and none of them holds a slot yet; the semaphore counter is
the full `concurrency_limit`. -/
def initSched (limit numItems : Nat) : SchedState :=
  ⟨List.replicate numItems TaskPhase.waiting, limit⟩

/-- Small-step transitions of the `_semaphore_coroutine` tasks
(`src/webscraper/asyncio.py:277-279`), modelled from the documented
semantics of `asyncio.Semaphore` and `async with`:
a waiting task may enter `async with semaphore` only while the counter
is positive, decrementing it (otherwise it stays suspended); a running
task may finish with any outcome, and leaving the `async with` block
increments the counter unconditionally — also when `retry` raised. The
scheduler choosing which enabled transition fires is the
nondeterminism of the event loop. -/
inductive SchedStep : SchedState → SchedState → Prop where
  | acquire (s : SchedState) (i : Nat)
      (hi : s.phases.get? i = some .waiting) (ha : 0 < s.avail) :
      SchedStep s ⟨s.phases.set i .running, s.avail - 1⟩
  | finish (s : SchedState) (i : Nat) (o : TaskOutcome Unit)
      (hi : s.phases.get? i = some .running) :
      SchedStep s ⟨s.phases.set i (.done o), s.avail + 1⟩

/-- Number of units of work currently executing (holding a slot). -/
def runningCount (s : SchedState) : Nat :=
  s.phases.countP TaskPhase.isRunning

/-- Number of units of work already finished. -/
def doneCount (s : SchedState) : Nat :=
  s.phases.countP TaskPhase.isDone

theorem successLists_cons {α β : Type} (t : α × TaskOutcome β) (ts : Trace α β) :
    successLists (t :: ts) = t.2.recordsOf ++ successLists ts := by
  obtain ⟨p, o⟩ := t
  cases o <;> simp [successLists, TaskOutcome.recordsOf, List.filterMap_cons]

theorem processTask_failed {α β : Type} (bs : Nat) (s : RunState α β)
    (t : α × TaskOutcome β) :
    (processTask bs s t).failed
      = s.failed ++ (if t.2.isTooMany then [t.1] else []) := by
  obtain ⟨p, o⟩ := t
  cases o with
  | success recs =>
      simp only [processTask, TaskOutcome.isTooMany]
      split <;> simp
  | tooManyRetries => simp [processTask, TaskOutcome.isTooMany]
  | otherError => simp [processTask, TaskOutcome.isTooMany]

theorem processTask_sum {α β : Type} (bs : Nat) (s : RunState α β)
    (t : α × TaskOutcome β) :
    (processTask bs s t).succeeded + (processTask bs s t).results.length
      = s.succeeded + s.results.length + (if t.2.isSuccess then 1 else 0) := by
  obtain ⟨p, o⟩ := t
  cases o with
  | success recs =>
      simp only [processTask, TaskOutcome.isSuccess]
      split <;> simp <;> omega
  | tooManyRetries => simp [processTask, TaskOutcome.isSuccess]
  | otherError => simp [processTask, TaskOutcome.isSuccess]

theorem processTask_stream {α β : Type} (bs : Nat) (s : RunState α β)
    (t : α × TaskOutcome β) :
    (processTask bs s t).flushes.flatten ++ (processTask bs s t).results
      = s.flushes.flatten ++ s.results ++ t.2.recordsOf := by
  obtain ⟨p, o⟩ := t
  cases o with
  | success recs =>
      simp only [processTask, TaskOutcome.recordsOf]
      split <;> simp
  | tooManyRetries => simp [processTask, TaskOutcome.recordsOf]
  | otherError => simp [processTask, TaskOutcome.recordsOf]

theorem processTask_succ_flushes {α β : Type} (bs : Nat) (s : RunState α β)
    (t : α × TaskOutcome β) (h : s.succeeded = (s.flushes.map List.length).sum) :
    (processTask bs s t).succeeded
      = ((processTask bs s t).flushes.map List.length).sum := by
  obtain ⟨p, o⟩ := t
  cases o with
  | success recs =>
      simp only [processTask]
      split <;> simp [h]
  | tooManyRetries => simp [processTask, h]
  | otherError => simp [processTask, h]

theorem processTask_buffer_lt {α β : Type} (bs : Nat) (s : RunState α β)
    (t : α × TaskOutcome β) (h0 : 0 < bs) (h : s.results.length < bs) :
    (processTask bs s t).results.length < bs := by
  obtain ⟨p, o⟩ := t
  cases o with
  | success recs =>
      simp only [processTask]
      split
      · simpa using h0
      · rename_i hc
        simp only [List.length_append, List.length_cons, List.length_nil] at hc ⊢
        omega
  | tooManyRetries => simpa [processTask] using h
  | otherError => simpa [processTask] using h

theorem processTask_flush_sizes {α β : Type} (bs : Nat) (s : RunState α β)
    (t : α × TaskOutcome β) (h : s.results.length < bs) :
    ∀ f ∈ (processTask bs s t).flushes, f ∈ s.flushes ∨ f.length = bs := by
  obtain ⟨p, o⟩ := t
  cases o with
  | success recs =>
      simp only [processTask]
      split
      · rename_i hc
        intro f hf
        rcases List.mem_append.mp hf with h1 | h2
        · exact Or.inl h1
        · right
          simp only [List.mem_singleton] at h2
          subst h2
          simp only [List.length_append, List.length_cons, List.length_nil] at hc ⊢
          omega
      · intro f hf
        exact Or.inl hf
  | tooManyRetries => intro f hf; exact Or.inl hf
  | otherError => intro f hf; exact Or.inl hf

theorem foldl_processTask_failed {α β : Type} (bs : Nat) (trace : Trace α β)
    (s : RunState α β) :
    (trace.foldl (processTask bs) s).failed = s.failed ++ failedParams trace := by
  induction trace generalizing s with
  | nil => simp [failedParams]
  | cons t ts ih =>
      rw [List.foldl_cons, ih, processTask_failed]
      obtain ⟨p, o⟩ := t
      cases o <;>
        simp [failedParams, TaskOutcome.isTooMany, List.filterMap_cons]

theorem foldl_processTask_sum {α β : Type} (bs : Nat) (trace : Trace α β)
    (s : RunState α β) :
    (trace.foldl (processTask bs) s).succeeded
        + (trace.foldl (processTask bs) s).results.length
      = s.succeeded + s.results.length + successCount trace := by
  induction trace generalizing s with
  | nil => simp [successCount]
  | cons t ts ih =>
      rw [List.foldl_cons, ih, processTask_sum]
      obtain ⟨p, o⟩ := t
      cases o <;>
        (simp [successCount, TaskOutcome.isSuccess, List.filter_cons]; try omega)

theorem foldl_processTask_stream {α β : Type} (bs : Nat) (trace : Trace α β)
    (s : RunState α β) :
    (trace.foldl (processTask bs) s).flushes.flatten
        ++ (trace.foldl (processTask bs) s).results
      = s.flushes.flatten ++ s.results ++ successLists trace := by
  induction trace generalizing s with
  | nil => simp [successLists]
  | cons t ts ih =>
      rw [List.foldl_cons, ih, processTask_stream, successLists_cons]
      simp [List.append_assoc]

theorem foldl_processTask_succ_flushes {α β : Type} (bs : Nat) (trace : Trace α β)
    (s : RunState α β) (h : s.succeeded = (s.flushes.map List.length).sum) :
    (trace.foldl (processTask bs) s).succeeded
      = ((trace.foldl (processTask bs) s).flushes.map List.length).sum := by
  induction trace generalizing s with
  | nil => exact h
  | cons t ts ih =>
      rw [List.foldl_cons]
      exact ih _ (processTask_succ_flushes bs s t h)

theorem foldl_processTask_inv {α β : Type} (bs : Nat) (trace : Trace α β)
    (s : RunState α β) (h0 : 0 < bs) (h : s.results.length < bs) :
    (trace.foldl (processTask bs) s).results.length < bs
      ∧ ∀ f ∈ (trace.foldl (processTask bs) s).flushes,
          f ∈ s.flushes ∨ f.length = bs := by
  induction trace generalizing s with
  | nil => exact ⟨h, fun f hf => Or.inl hf⟩
  | cons t ts ih =>
      rw [List.foldl_cons]
      obtain ⟨h1, h2⟩ := ih (processTask bs s t) (processTask_buffer_lt bs s t h0 h)
      refine ⟨h1, fun f hf => ?_⟩
      rcases h2 f hf with hmem | hlen
      · exact processTask_flush_sizes bs s t h f hmem
      · exact Or.inr hlen

theorem finalFlush_failed {α β : Type} (s : RunState α β) :
    (finalFlush s).failed = s.failed := by
  unfold finalFlush
  split <;> rfl

theorem finalFlush_results {α β : Type} (s : RunState α β) :
    (finalFlush s).results = [] := by
  unfold finalFlush
  split
  · rfl
  · rename_i h
    have hz : s.results.length = 0 := by omega
    exact List.length_eq_zero.mp hz

theorem finalFlush_succeeded {α β : Type} (s : RunState α β) :
    (finalFlush s).succeeded = s.succeeded + s.results.length := by
  unfold finalFlush
  split
  · rfl
  · rename_i h
    have hz : s.results.length = 0 := by omega
    simp [hz]

theorem finalFlush_stream {α β : Type} (s : RunState α β) :
    (finalFlush s).flushes.flatten = s.flushes.flatten ++ s.results := by
  unfold finalFlush
  split
  · simp
  · rename_i h
    have hz : s.results.length = 0 := by omega
    simp [List.length_eq_zero.mp hz]

theorem finalFlush_succ_flushes {α β : Type} (s : RunState α β)
    (h : s.succeeded = (s.flushes.map List.length).sum) :
    (finalFlush s).succeeded = ((finalFlush s).flushes.map List.length).sum := by
  unfold finalFlush
  split <;> simp [h]

theorem finalFlush_flush_mem {α β : Type} (s : RunState α β) :
    ∀ f ∈ (finalFlush s).flushes,
      f ∈ s.flushes ∨ (f = s.results ∧ 0 < s.results.length) := by
  unfold finalFlush
  split
  · rename_i h
    intro f hf
    rcases List.mem_append.mp hf with h1 | h2
    · exact Or.inl h1
    · simp only [List.mem_singleton] at h2
      exact Or.inr ⟨h2, h⟩
  · intro f hf
    exact Or.inl hf

theorem make_requests_failed {α β : Type} (trace : Trace α β) :
    (make_requests trace).failed = failedParams trace := by
  rw [make_requests, finalFlush_failed, runLoop, foldl_processTask_failed]
  simp [initState]

theorem make_requests_succeeded {α β : Type} (trace : Trace α β) :
    (make_requests trace).succeeded = successCount trace := by
  rw [make_requests, finalFlush_succeeded]
  have h := foldl_processTask_sum BATCH_SIZE trace (initState α β)
  simpa [runLoop, initState] using h

theorem make_requests_stream {α β : Type} (trace : Trace α β) :
    (make_requests trace).flushes.flatten = successLists trace := by
  rw [make_requests, finalFlush_stream]
  have h := foldl_processTask_stream BATCH_SIZE trace (initState α β)
  simpa [runLoop, initState] using h

theorem make_requests_succ_eq_flush_sum {α β : Type} (trace : Trace α β) :
    (make_requests trace).succeeded
      = ((make_requests trace).flushes.map List.length).sum := by
  rw [make_requests]
  refine finalFlush_succ_flushes _ ?_
  exact foldl_processTask_succ_flushes BATCH_SIZE trace (initState α β) rfl

theorem successCount_add_failedParams {α β : Type} (trace : Trace α β)
    (h : trace.all (fun t => !t.2.isOtherError) = true) :
    successCount trace + (failedParams trace).length = trace.length := by
  induction trace with
  | nil => simp [successCount, failedParams]
  | cons t ts ih =>
      simp only [List.all_cons, Bool.and_eq_true] at h
      obtain ⟨p, o⟩ := t
      have hts := ih h.2
      cases o with
      | success recs =>
          simp [successCount, failedParams, List.filter_cons, List.filterMap_cons,
            TaskOutcome.isSuccess, TaskOutcome.isTooMany] at hts ⊢
          omega
      | tooManyRetries =>
          simp [successCount, failedParams, List.filter_cons, List.filterMap_cons,
            TaskOutcome.isSuccess, TaskOutcome.isTooMany] at hts ⊢
          omega
      | otherError =>
          simp [TaskOutcome.isOtherError] at h

/-- **C1** (corrected). The claim asserts `succeeded_count` equals the
total number of records delivered to the Batch Sink. In the code
(`src/webscraper/asyncio.py:298-310`) `succeeded` grows by
`len(results)`, the number of *buffer entries* — one entry per
successful task, whatever the length of its record list. So
`succeeded_count` equals the number of successful work items, which is
the number of buffer entries across all flushes; what the sink receives
across all flushes is the concatenation of the successful tasks' record
lists (whose total length generally differs from `succeeded_count`). -/
theorem make_requests_succeeded_counts_items {α β : Type} (trace : Trace α β) :
    (make_requests trace).succeeded = successCount trace
    ∧ (make_requests trace).succeeded
        = ((make_requests trace).flushes.map List.length).sum
    ∧ (make_requests trace).flushes.flatten = successLists trace :=
  ⟨make_requests_succeeded trace, make_requests_succ_eq_flush_sum trace,
    make_requests_stream trace⟩

/-- **C1** counterexample. Spec Scenario C: one item yields 0 records,
another yields 3. The claim demands `succeeded_count = 3` (records
delivered); the code returns `succeeded = 2` (items), while 3 records
are delivered across the flush calls, so the two totals differ. -/
theorem make_requests_succeeded_counts_items_cex :
    (make_requests [((0 : Nat), TaskOutcome.success ([] : List Int)),
        (1, TaskOutcome.success [10, 11, 12])]).succeeded = 2
    ∧ recordsDelivered (make_requests [((0 : Nat), TaskOutcome.success ([] : List Int)),
        (1, TaskOutcome.success [10, 11, 12])]) = 3
    ∧ (make_requests [((0 : Nat), TaskOutcome.success ([] : List Int)),
        (1, TaskOutcome.success [10, 11, 12])]).succeeded
        ≠ recordsDelivered (make_requests [((0 : Nat), TaskOutcome.success ([] : List Int)),
            (1, TaskOutcome.success [10, 11, 12])]) := by
  refine ⟨by decide, by decide, by decide⟩

/-- **C2** (amended). Provided every task outcome comes from the Retry
Executor — i.e. is a success or a `TooManyRetries`, never some other
exception — every supplied WorkItem reaches exactly one terminal
outcome: it is counted once (as one item) in `succeeded_count` with its
record list delivered to the Batch Sink, or its params appear exactly
once in `failed` (which lists precisely the `TooManyRetries` tasks in
completion order); never both, never neither, as witnessed by
`succeeded + |failed| = number of items`. -/
theorem make_requests_exactly_one_outcome {α β : Type} (trace : Trace α β)
    (h : trace.all (fun t => !t.2.isOtherError) = true) :
    (make_requests trace).failed = failedParams trace
    ∧ (make_requests trace).succeeded = successCount trace
    ∧ (make_requests trace).succeeded + (make_requests trace).failed.length
        = trace.length
    ∧ (make_requests trace).flushes.flatten = successLists trace := by
  refine ⟨make_requests_failed trace, make_requests_succeeded trace, ?_,
    make_requests_stream trace⟩
  rw [make_requests_failed trace, make_requests_succeeded trace]
  exact successCount_add_failedParams trace h

/-- Witness for the C2 theorem at a concrete two-item trace (one
success, one retry exhaustion). -/
theorem make_requests_exactly_one_outcome_witness :
    (make_requests [((0 : Nat), TaskOutcome.success [(7 : Int)]),
        (1, TaskOutcome.tooManyRetries)]).failed
        = failedParams [((0 : Nat), TaskOutcome.success [(7 : Int)]),
            (1, TaskOutcome.tooManyRetries)]
    ∧ (make_requests [((0 : Nat), TaskOutcome.success [(7 : Int)]),
        (1, TaskOutcome.tooManyRetries)]).succeeded
        = successCount [((0 : Nat), TaskOutcome.success [(7 : Int)]),
            (1, TaskOutcome.tooManyRetries)]
    ∧ (make_requests [((0 : Nat), TaskOutcome.success [(7 : Int)]),
        (1, TaskOutcome.tooManyRetries)]).succeeded
        + (make_requests [((0 : Nat), TaskOutcome.success [(7 : Int)]),
            (1, TaskOutcome.tooManyRetries)]).failed.length
        = ([((0 : Nat), TaskOutcome.success [(7 : Int)]),
            (1, TaskOutcome.tooManyRetries)] : Trace Nat Int).length
    ∧ (make_requests [((0 : Nat), TaskOutcome.success [(7 : Int)]),
        (1, TaskOutcome.tooManyRetries)]).flushes.flatten
        = successLists [((0 : Nat), TaskOutcome.success [(7 : Int)]),
            (1, TaskOutcome.tooManyRetries)] :=
  make_requests_exactly_one_outcome
    [((0 : Nat), TaskOutcome.success [(7 : Int)]), (1, TaskOutcome.tooManyRetries)]
    (by decide)

/-- **C2** counterexample. A single WorkItem whose task succeeds with 3
records: `succeeded_count` is 1, not 3, so "its records are counted in
`succeeded_count`" fails, and the item is not in `failed` either — the
claim's dichotomy, read literally over record counts, holds in neither
branch at this input. -/
theorem make_requests_records_counted_cex :
    (make_requests [((5 : Nat), TaskOutcome.success [(1 : Int), 2, 3])]).succeeded = 1
    ∧ (make_requests [((5 : Nat), TaskOutcome.success [(1 : Int), 2, 3])]).failed = []
    ∧ recordsDelivered
        (make_requests [((5 : Nat), TaskOutcome.success [(1 : Int), 2, 3])]) = 3
    ∧ (make_requests [((5 : Nat), TaskOutcome.success [(1 : Int), 2, 3])]).succeeded
        ≠ 3 := by
  refine ⟨by decide, by decide, by decide, by decide⟩

/-- **C3** (code bug): evaluation at the failing input. A task that
finishes with an exception other than `TooManyRetries` is silently
dropped by the reducer loop of `make_requests`
(`src/webscraper/asyncio.py:293-296` retrieves `task.exception()` and
has no branch for other exception types): the run returns normally with
`succeeded = 0` and `failed = []` — the item is neither counted nor
reported nor is the error propagated, contradicting the claim (and spec
sections 4.4/7, which spec section 9 itself records as a latent
defect). -/
theorem make_requests_other_error_silently_dropped :
    make_requests ([((7 : Nat), TaskOutcome.otherError)] : Trace Nat Int)
      = { results := [], failed := [], succeeded := 0, flushes := [] } := by
  decide

/-- **C5** (confirmed). During the reducer loop every flush happens at
exactly the `BATCH_SIZE = 10000` threshold (each in-loop flush flushes
exactly `BATCH_SIZE` buffer entries, and the buffer is always strictly
below the threshold afterwards); at run end every flush ever issued is
nonempty and at most `BATCH_SIZE`, the buffer is completely drained
(a final flush happens exactly when a nonzero remainder exists), and the
total number of entries flushed equals the number of successful tasks —
nothing is lost or duplicated. -/
theorem flush_exactly_at_batch_size {α β : Type} (trace : Trace α β) :
    List.Forall (fun f => f.length = BATCH_SIZE) (runLoop BATCH_SIZE trace).flushes
    ∧ (runLoop BATCH_SIZE trace).results.length < BATCH_SIZE
    ∧ List.Forall (fun f => 1 ≤ f.length ∧ f.length ≤ BATCH_SIZE)
        (make_requests trace).flushes
    ∧ (make_requests trace).results = []
    ∧ ((make_requests trace).flushes.map List.length).sum = successCount trace := by
  have hbs : 0 < BATCH_SIZE := by decide
  have hinit : (initState α β).results.length < BATCH_SIZE := by
    simp [initState]
    decide
  obtain ⟨hlt, hmem⟩ := foldl_processTask_inv BATCH_SIZE trace (initState α β) hbs hinit
  have hrl : runLoop BATCH_SIZE trace = trace.foldl (processTask BATCH_SIZE) (initState α β) :=
    rfl
  rw [← hrl] at hlt hmem
  have hloopmem : ∀ f ∈ (runLoop BATCH_SIZE trace).flushes, f.length = BATCH_SIZE := by
    intro f hf
    rcases hmem f hf with hin | hlen
    · simp [initState] at hin
    · exact hlen
  refine ⟨List.forall_iff_forall_mem.mpr hloopmem, hlt, ?_, ?_, ?_⟩
  · refine List.forall_iff_forall_mem.mpr ?_
    intro f hf
    rcases finalFlush_flush_mem (runLoop BATCH_SIZE trace) f hf with hin | ⟨heq, hpos⟩
    · have := hloopmem f hin
      omega
    · subst heq
      omega
  · exact finalFlush_results _
  · rw [← make_requests_succ_eq_flush_sum trace]
    exact make_requests_succeeded trace

/-- **C9** (corrected). The three example mappings of the flatten
operation hold, and any input with a non-list element raises — but the
raised exception is a `ValueError` (as the source and its test
`test_utils.py:15-17` agree), not a `TypeError` as the claim says. -/
theorem flatten_examples_and_error :
    flatten [PyObj.lst [(1 : Int), 2, 3], PyObj.lst [4, 5], PyObj.lst [6, 7, 8]]
        = Except.ok [1, 2, 3, 4, 5, 6, 7, 8]
    ∧ flatten [PyObj.lst [(1 : Int), 2], PyObj.lst [], PyObj.lst [3, 4]]
        = Except.ok [1, 2, 3, 4]
    ∧ flatten ([] : List (PyObj Int)) = Except.ok []
    ∧ ∀ (l : List (PyObj Int)), l.all PyObj.isList = false →
        flatten l
          = Except.error
              (PyError.valueError "All elements of the input must be of type list.") := by
  refine ⟨by decide, by decide, by decide, ?_⟩
  intro l hl
  simp [flatten, hl]

/-- Witness for the C9 theorem: a one-element non-nested input raises
the `ValueError`. -/
theorem flatten_examples_and_error_witness :
    flatten ([PyObj.nonList] : List (PyObj Int))
      = Except.error
          (PyError.valueError "All elements of the input must be of type list.") :=
  flatten_examples_and_error.2.2.2 [PyObj.nonList] (by decide)

theorem tailWaits_succ (b v : ℚ) (i m : Nat) :
    tailWaits b v i (m + 1) = v :: tailWaits b (b * 2 ^ i) (i + 1) m := by
  cases m with
  | zero => rfl
  | succ k => simp [tailWaits, List.range'_succ]

theorem tailWaits_zero_eq_failWaits (b : ℚ) (n : Nat) :
    tailWaits b 0 0 n = failWaits b n := by
  cases n with
  | zero => rfl
  | succ m => simp [tailWaits, failWaits, List.range_eq_range']

theorem retryAux_all_fail {α ε ρ : Type} (attempt : Nat → Except ε ρ) (params : α)
    (b : ℚ) (rem : Nat) :
    ∀ (i : Nat) (v : ℚ) (waits : List ℚ) (made : Nat),
      (∀ j, i ≤ j → j < i + rem → (attempt j).toOption = none) →
      retryAux attempt params b i rem v waits made
        = ⟨Except.error (RetryExc.tooManyRetries params),
            waits ++ tailWaits b v i rem, made + rem⟩ := by
  induction rem with
  | zero =>
      intro i v waits made _
      simp [retryAux, tailWaits]
  | succ m ih =>
      intro i v waits made h
      have hfi := h i le_rfl (by omega)
      simp only [retryAux]
      cases he : attempt i with
      | ok r => rw [he] at hfi; simp [Except.toOption] at hfi
      | error e =>
          rw [ih (i + 1) (b * 2 ^ i) (waits ++ [v]) (made + 1)
            (fun j hj1 hj2 => h j (by omega) (by omega))]
          have hl : (waits ++ [v]) ++ tailWaits b (b * 2 ^ i) (i + 1) m
              = waits ++ tailWaits b v i (m + 1) := by
            rw [tailWaits_succ]
            simp
          have hn : made + 1 + m = made + (m + 1) := by omega
          rw [hl, hn]

theorem retryAux_succeeds {α ε ρ : Type} (attempt : Nat → Except ε ρ) (params : α)
    (b : ℚ) (k : Nat) :
    ∀ (rem i : Nat) (v : ℚ) (waits : List ℚ) (made : Nat) (r : ρ),
      k < rem →
      (∀ j, i ≤ j → j < i + k → (attempt j).toOption = none) →
      attempt (i + k) = Except.ok r →
      retryAux attempt params b i rem v waits made
        = ⟨Except.ok r, waits ++ tailWaits b v i k, made + k + 1⟩ := by
  induction k with
  | zero =>
      intro rem i v waits made r hk _ hok
      obtain ⟨m, rfl⟩ : ∃ m, rem = m + 1 := ⟨rem - 1, by omega⟩
      have hok' : attempt i = Except.ok r := by simpa using hok
      simp [retryAux, hok', tailWaits]
  | succ n ih =>
      intro rem i v waits made r hk hfail hok
      obtain ⟨m, rfl⟩ : ∃ m, rem = m + 1 := ⟨rem - 1, by omega⟩
      have hfi := hfail i le_rfl (by omega)
      simp only [retryAux]
      cases he : attempt i with
      | ok rr => rw [he] at hfi; simp [Except.toOption] at hfi
      | error e =>
          rw [ih m (i + 1) (b * 2 ^ i) (waits ++ [v]) (made + 1) r (by omega)
            (fun j hj1 hj2 => hfail j (by omega) (by omega))
            (by rw [show i + 1 + n = i + (n + 1) by omega]; exact hok)]
          have hl : (waits ++ [v]) ++ tailWaits b (b * 2 ^ i) (i + 1) n
              = waits ++ tailWaits b v i (n + 1) := by
            rw [tailWaits_succ]
            simp
          have hn : made + 1 + n + 1 = made + (n + 1) + 1 := by omega
          rw [hl, hn]

theorem retryAux_no_transient {α ε ρ : Type} (attempt : Nat → Except ε ρ) (params : α)
    (b : ℚ) (rem : Nat) :
    ∀ (i : Nat) (v : ℚ) (waits : List ℚ) (made : Nat) (e : ε),
      (retryAux attempt params b i rem v waits made).result
        ≠ Except.error (RetryExc.transient e) := by
  induction rem with
  | zero =>
      intro i v waits made e
      simp [retryAux]
  | succ m ih =>
      intro i v waits made e
      simp only [retryAux]
      cases he : attempt i with
      | ok r => simp
      | error e2 => exact ih (i + 1) (b * 2 ^ i) (waits ++ [v]) (made + 1) e

/-- **C4** (corrected). Attempts are numbered `0..max_retries-1` and the
unit of work is invoked exactly once per attempt. But the sleep schedule
differs from the claim: the source sleeps the current `retry_interval`
*before* updating it to `backoff_factor * 2**i`
(`src/webscraper/asyncio.py:84-85`), so a run whose first `k` attempts
fail sleeps `0.0` after the first failure and `backoff_factor * 2^(j-1)`
after failure `j` for `j ≥ 2` — i.e. the wait before attempt `i > 1` is
`backoff_factor * 2^(i-2)`, and the wait before attempt `1` is `0`, not
`backoff_factor * 2^(i-1)`. Success on (0-indexed) attempt `k` returns
the result after those `k` sleeps; if all `max_retries` attempts fail,
the loop performs one further (useless) sleep inside the last `except`
and then raises the retry-exhausted error carrying the original
`params`; the underlying transient error never escapes. -/
theorem retry_schedule {α ε ρ : Type} (attempt : Nat → Except ε ρ) (params : α)
    (max_retries : Nat) (backoff_factor : ℚ) :
    ((∀ j, j < max_retries → (attempt j).toOption = none) →
      retry attempt params max_retries backoff_factor
        = ⟨Except.error (RetryExc.tooManyRetries params),
            failWaits backoff_factor max_retries, max_retries⟩)
    ∧ (∀ k r, k < max_retries → (∀ j, j < k → (attempt j).toOption = none) →
        attempt k = Except.ok r →
        retry attempt params max_retries backoff_factor
          = ⟨Except.ok r, failWaits backoff_factor k, k + 1⟩)
    ∧ ∀ e, (retry attempt params max_retries backoff_factor).result
        ≠ Except.error (RetryExc.transient e) := by
  refine ⟨?_, ?_, ?_⟩
  · intro h
    rw [retry, retryAux_all_fail attempt params backoff_factor max_retries 0 0 [] 0
      (fun j hj1 hj2 => h j (by omega))]
    rw [tailWaits_zero_eq_failWaits]
    simp
  · intro k r hk hfail hok
    rw [retry, retryAux_succeeds attempt params backoff_factor k max_retries 0 0 [] 0 r
      hk (fun j hj1 hj2 => hfail j (by omega)) (by simpa using hok)]
    rw [tailWaits_zero_eq_failWaits]
    simp
  · intro e
    exact retryAux_no_transient attempt params backoff_factor max_retries 0 0 [] 0 e

/-- Witness for the C4 theorem: with `max_retries = 2`,
`backoff_factor = 1`, an attempt oracle failing once then succeeding:
the result is returned after one sleep of duration `0`. -/
theorem retry_schedule_witness :
    retry (fun i => if i = 0 then Except.error () else Except.ok (42 : Int))
        (5 : Nat) 2 1
      = ⟨Except.ok 42, failWaits 1 1, 2⟩ :=
  (retry_schedule (fun i => if i = 0 then Except.error () else Except.ok (42 : Int))
    (5 : Nat) 2 1).2.1 1 42 (by decide) (by decide) (by decide)

/-- **C4** counterexample. The claim's schedule says the wait before
attempt `i = 1` is `backoff_factor * 2^(1-1) = 1` (with
`backoff_factor = 1`); the code's only sleep before attempt 1 has
duration `0`: success on the second attempt yields the wait list `[0]`,
not `[1]`. -/
theorem retry_backoff_off_by_one_cex :
    (retry (fun i => if i = 0 then Except.error () else Except.ok (42 : Int))
        (5 : Nat) 2 1).waits = [0]
    ∧ (retry (fun i => if i = 0 then Except.error () else Except.ok (42 : Int))
        (5 : Nat) 2 1).attemptsMade = 2
    ∧ [(0 : ℚ)] ≠ [(1 : ℚ)] := by
  refine ⟨by decide, by decide, by decide⟩

theorem filter_and_comm {γ : Type} (l : List γ) (p q : γ → Bool) :
    l.filter (fun a => p a && q a) = l.filter (fun a => q a && p a) := by
  apply List.filter_congr
  intro a _
  exact Bool.and_comm (p a) (q a)

theorem executeMany_ok_of_forall (schema : TableSchema) (vs : List Row) :
    ∀ t : List Row, List.Forall (fun v => v.length = schema.cols.length) vs →
      executeMany schema t vs = Except.ok (vs.foldl (insertRow schema) t) := by
  induction vs with
  | nil => intro t _; simp [executeMany]
  | cons v vs ih =>
      intro t h
      rw [List.forall_cons] at h
      simp [executeMany, h.1, List.foldl_cons, ih (insertRow schema t v) h.2]

theorem executeMany_eq_ok (schema : TableSchema) (vs : List Row) :
    ∀ t u : List Row, executeMany schema t vs = Except.ok u →
      List.Forall (fun v => v.length = schema.cols.length) vs
        ∧ u = vs.foldl (insertRow schema) t := by
  induction vs with
  | nil =>
      intro t u h
      simp [executeMany] at h
      exact ⟨trivial, h.symm⟩
  | cons v vs ih =>
      intro t u h
      rw [executeMany] at h
      by_cases hv : v.length = schema.cols.length
      · rw [if_pos hv] at h
        obtain ⟨h1, h2⟩ := ih (insertRow schema t v) u h
        exact ⟨(List.forall_cons _ _ _).mpr ⟨hv, h1⟩, by simpa [List.foldl_cons] using h2⟩
      · rw [if_neg hv] at h
        exact absurd h (by simp)

theorem executeMany_error_of_not_forall (schema : TableSchema) (vs : List Row) :
    ∀ t : List Row, ¬ List.Forall (fun v => v.length = schema.cols.length) vs →
      executeMany schema t vs = Except.error DbError.programmingError := by
  induction vs with
  | nil => intro t h; exact absurd trivial h
  | cons v vs ih =>
      intro t h
      rw [executeMany]
      by_cases hv : v.length = schema.cols.length
      · rw [if_pos hv]
        refine ih (insertRow schema t v) ?_
        intro hall
        exact h ((List.forall_cons _ _ _).mpr ⟨hv, hall⟩)
      · rw [if_neg hv]

theorem foldl_insertRow_filter (schema : TableSchema) (vs : List Row) :
    ∀ t : List Row,
      vs.foldl (insertRow schema) t
        = t.filter (fun row =>
              vs.all (fun v => row.get? schema.pkIdx != v.get? schema.pkIdx))
            ++ vs.foldl (insertRow schema) [] := by
  induction vs with
  | nil => intro t; simp
  | cons v vs ih =>
      intro t
      rw [List.foldl_cons, ih (insertRow schema t v), List.foldl_cons]
      have hnil : insertRow schema ([] : List Row) v = [v] := by
        simp [insertRow]
      rw [hnil, ih [v]]
      rw [insertRow, List.filter_append, List.filter_filter]
      rw [filter_and_comm]
      have hpred : (fun row : Row =>
            (row.get? schema.pkIdx != v.get? schema.pkIdx)
              && vs.all (fun w => row.get? schema.pkIdx != w.get? schema.pkIdx))
          = fun row : Row =>
            (v :: vs).all (fun w => row.get? schema.pkIdx != w.get? schema.pkIdx) := by
        funext row
        simp [List.all_cons]
      rw [hpred]
      simp [List.append_assoc]

theorem mem_foldl_insertRow (schema : TableSchema) (vs : List Row) :
    ∀ (t : List Row) (row : Row), row ∈ vs.foldl (insertRow schema) t →
      row ∈ t ∨ ∃ v ∈ vs, row.get? schema.pkIdx = v.get? schema.pkIdx := by
  induction vs with
  | nil => intro t row h; exact Or.inl h
  | cons v vs ih =>
      intro t row h
      rw [List.foldl_cons] at h
      rcases ih (insertRow schema t v) row h with hm | ⟨w, hw, he⟩
      · rw [insertRow] at hm
        rcases List.mem_append.mp hm with hf | hv
        · exact Or.inl (List.mem_of_mem_filter hf)
        · simp only [List.mem_singleton] at hv
          exact Or.inr ⟨v, List.mem_cons_self v vs, by rw [hv]⟩
      · exact Or.inr ⟨w, List.mem_cons_of_mem v hw, he⟩

theorem foldl_insertRow_idem (schema : TableSchema) (vs : List Row) (t : List Row) :
    vs.foldl (insertRow schema) (vs.foldl (insertRow schema) t)
      = vs.foldl (insertRow schema) t := by
  rw [foldl_insertRow_filter schema vs (vs.foldl (insertRow schema) t),
    foldl_insertRow_filter schema vs t, List.filter_append, List.filter_filter]
  have hself : ∀ (l : List Row) (p : Row → Bool), l.filter (fun a => p a && p a)
      = l.filter p := by
    intro l p
    apply List.filter_congr
    intro a _
    exact Bool.and_self (p a)
  rw [hself]
  have hnil : (vs.foldl (insertRow schema) []).filter (fun row =>
      vs.all (fun v => row.get? schema.pkIdx != v.get? schema.pkIdx)) = [] := by
    rw [List.filter_eq_nil_iff]
    intro row hrow
    rcases mem_foldl_insertRow schema vs [] row hrow with hm | ⟨v, hv, he⟩
    · simp at hm
    · intro hall
      have := List.all_eq_true.mp hall v hv
      exact absurd he (bne_iff_ne.mp this)
  rw [hnil]
  simp

/-- **C8** (corrected). Each `insert_into` call is all-or-nothing: if
every record's *number of fields* equals the number of declared columns,
all records are applied in order with REPLACE semantics in a single
transaction; if any record's field count differs, the call raises
`ProgrammingError` and (the `with conn` block rolling back) persists
nothing. But field *names* are never consulted: values are bound to the
declared columns positionally (`tuple(c.values())`), so a record with
the right number of wrongly-named fields is inserted without error —
the claim's "raises for every record whose fields do not match the
declared columns" holds only for the field count, not the field
names. -/
theorem insert_into_arity_only (schema : TableSchema) (t : List Row)
    (data : List Record) :
    (List.Forall (fun r => r.length = schema.cols.length) data →
      insert_into schema t data
        = Except.ok ((data.map recordValues).foldl (insertRow schema) t))
    ∧ (¬ List.Forall (fun r => r.length = schema.cols.length) data →
      insert_into schema t data = Except.error DbError.programmingError)
    ∧ ∀ g : String → String,
        insert_into schema t (data.map (fun r => r.map (fun kv => (g kv.1, kv.2))))
          = insert_into schema t data := by
  have harity : ∀ r : Record, (recordValues r).length = r.length := by
    intro r
    simp [recordValues]
  refine ⟨?_, ?_, ?_⟩
  · intro h
    rw [insert_into]
    refine executeMany_ok_of_forall schema (data.map recordValues) t ?_
    rw [List.forall_iff_forall_mem]
    intro v hv
    rcases List.mem_map.mp hv with ⟨r, hr, rfl⟩
    rw [harity r]
    exact List.forall_iff_forall_mem.mp h r hr
  · intro h
    rw [insert_into]
    refine executeMany_error_of_not_forall schema (data.map recordValues) t ?_
    intro hall
    refine h ?_
    rw [List.forall_iff_forall_mem]
    intro r hr
    have := List.forall_iff_forall_mem.mp hall (recordValues r)
      (List.mem_map.mpr ⟨r, hr, rfl⟩)
    rw [harity r] at this
    exact this
  · intro g
    rw [insert_into, insert_into]
    have hmap : (data.map (fun r => r.map (fun kv => (g kv.1, kv.2)))).map recordValues
        = data.map recordValues := by
      rw [List.map_map]
      apply List.map_congr_left
      intro r _
      simp [recordValues, Function.comp]
    rw [hmap]

/-- Witness for the C8 theorem at a concrete table and record list:
matching field count inserts, mismatching field count raises. -/
theorem insert_into_arity_only_witness :
    insert_into ⟨["id", "x"], 0⟩ [] [[("id", (1 : Int)), ("x", 5)]]
        = Except.ok [[1, 5]]
    ∧ insert_into ⟨["id", "x"], 0⟩ [] [[("id", (1 : Int))]]
        = Except.error DbError.programmingError :=
  ⟨(insert_into_arity_only ⟨["id", "x"], 0⟩ []
      [[("id", (1 : Int)), ("x", 5)]]).1 (by decide),
    (insert_into_arity_only ⟨["id", "x"], 0⟩ []
      [[("id", (1 : Int))]]).2.1 (by decide)⟩

/-- **C8** counterexample. A record whose two fields are named `foo` and
`bar` is inserted into a table declaring columns `id` and `name` without
any error — its values are bound positionally — although its fields do
not match the table's declared columns. -/
theorem insert_into_wrong_names_cex :
    insert_into ⟨["id", "name"], 0⟩ [] [[("foo", (1 : Int)), ("bar", 2)]]
        = Except.ok [[1, 2]]
    ∧ [("foo", (1 : Int)), ("bar", 2)].map Prod.fst ≠ ["id", "name"] := by
  refine ⟨by decide, by decide⟩

/-- **C10** (confirmed). If a record list whose records match the
table's column count is inserted once, inserting the very same list
again leaves the table rows unchanged: each record REPLACEs the row
bearing its primary key (added by the first call), so the second call is
the identity on the table state — no duplicate rows, no error. -/
theorem insert_into_idempotent (schema : TableSchema) (t t' : List Row)
    (data : List Record) (h : insert_into schema t data = Except.ok t') :
    insert_into schema t' data = Except.ok t' := by
  rw [insert_into] at h ⊢
  obtain ⟨hall, rfl⟩ := executeMany_eq_ok schema (data.map recordValues) t _ h
  rw [executeMany_ok_of_forall schema (data.map recordValues) _ hall]
  rw [foldl_insertRow_idem]

/-- Witness for the C10 theorem: re-inserting `[{"id": 1, "x": 5}]` into
the table that already holds exactly that row changes nothing. -/
theorem insert_into_idempotent_witness :
    insert_into ⟨["id", "x"], 0⟩ [[1, 5]] [[("id", (1 : Int)), ("x", 5)]]
      = Except.ok [[1, 5]] :=
  insert_into_idempotent ⟨["id", "x"], 0⟩ [] [[1, 5]]
    [[("id", (1 : Int)), ("x", 5)]] (by decide)

/-- **C7** (corrected). The sequencer runs the four stages in order
(categories → pages → article URLs → article data) and never aborts on a
stage's partial failures: whenever the run completes, every stage has
run and reports its own `failed` list (computed from its own completion
trace, independently of earlier stages' failures). But only stages 3 and
4 take their WorkItems from the previous stage's persisted records
reloaded from storage; stage 2 receives the in-memory `categories` list
from stage 1, not a reload of the `categories` table — and stage 1 is a
synchronous insert, not an Orchestrator pass. -/
theorem scrape_stage_structure (db0 : DbState) (categories : List Record)
    (t2 t3 t4 : List Record → Trace Record Record) (result : ScrapeResult)
    (h : scrape_ecommerce_site db0 categories t2 t3 t4 = Except.ok result) :
    result.stage2.items = categories
    ∧ result.stage3.items = reload PAGES_URLS_TABLE result.db.pages_urls
    ∧ result.stage4.items = reload ARTICLES_URLS_TABLE result.db.articles_urls
    ∧ result.stage2.failed = failedParams (t2 result.stage2.items)
    ∧ result.stage3.failed = failedParams (t3 result.stage3.items)
    ∧ result.stage4.failed = failedParams (t4 result.stage4.items) := by
  unfold scrape_ecommerce_site at h
  cases h1 : insert_into CATEGORIES_TABLE db0.categories categories with
  | error e =>
      rw [h1] at h
      exact absurd h (by simp [Bind.bind, Except.bind])
  | ok catRows =>
      rw [h1] at h
      simp only [Bind.bind, Except.bind] at h
      cases h2 : applyFlushes PAGES_URLS_TABLE db0.pages_urls
          (make_requests (t2 categories)).flushes with
      | error e =>
          rw [h2] at h
          exact absurd h (by simp)
      | ok pagesRows =>
          rw [h2] at h
          simp only [] at h
          cases h3 : applyFlushes ARTICLES_URLS_TABLE db0.articles_urls
              (make_requests (t3 (reload PAGES_URLS_TABLE pagesRows))).flushes with
          | error e =>
              rw [h3] at h
              exact absurd h (by simp)
          | ok artUrlRows =>
              rw [h3] at h
              simp only [] at h
              cases h4 : applyFlushes ARTICLES_DATA_TABLE db0.articles_data
                  (make_requests (t4 (reload ARTICLES_URLS_TABLE artUrlRows))).flushes with
              | error e =>
                  rw [h4] at h
                  exact absurd h (by simp)
              | ok artDataRows =>
                  rw [h4] at h
                  simp only [pure, Except.pure, Except.ok.injEq] at h
                  subst h
                  refine ⟨rfl, rfl, rfl, ?_, ?_, ?_⟩
                  · exact make_requests_failed (t2 categories)
                  · exact make_requests_failed (t3 (reload PAGES_URLS_TABLE pagesRows))
                  · exact make_requests_failed (t4 (reload ARTICLES_URLS_TABLE artUrlRows))

/-- Witness for the C7 theorem at the empty world (no pre-existing rows,
no categories, no tasks). -/
theorem scrape_stage_structure_witness :
    (⟨⟨[], [], [], []⟩, ⟨[], []⟩, ⟨[], []⟩, ⟨[], []⟩⟩ : ScrapeResult).stage2.items
        = ([] : List Record)
    ∧ (⟨⟨[], [], [], []⟩, ⟨[], []⟩, ⟨[], []⟩, ⟨[], []⟩⟩ : ScrapeResult).stage3.items
        = reload PAGES_URLS_TABLE
            (⟨⟨[], [], [], []⟩, ⟨[], []⟩, ⟨[], []⟩, ⟨[], []⟩⟩ : ScrapeResult).db.pages_urls
    ∧ (⟨⟨[], [], [], []⟩, ⟨[], []⟩, ⟨[], []⟩, ⟨[], []⟩⟩ : ScrapeResult).stage4.items
        = reload ARTICLES_URLS_TABLE
            (⟨⟨[], [], [], []⟩, ⟨[], []⟩, ⟨[], []⟩, ⟨[], []⟩⟩ : ScrapeResult).db.articles_urls
    ∧ (⟨⟨[], [], [], []⟩, ⟨[], []⟩, ⟨[], []⟩, ⟨[], []⟩⟩ : ScrapeResult).stage2.failed
        = failedParams (((fun _ => []) : List Record → Trace Record Record)
            (⟨⟨[], [], [], []⟩, ⟨[], []⟩, ⟨[], []⟩, ⟨[], []⟩⟩ : ScrapeResult).stage2.items)
    ∧ (⟨⟨[], [], [], []⟩, ⟨[], []⟩, ⟨[], []⟩, ⟨[], []⟩⟩ : ScrapeResult).stage3.failed
        = failedParams (((fun _ => []) : List Record → Trace Record Record)
            (⟨⟨[], [], [], []⟩, ⟨[], []⟩, ⟨[], []⟩, ⟨[], []⟩⟩ : ScrapeResult).stage3.items)
    ∧ (⟨⟨[], [], [], []⟩, ⟨[], []⟩, ⟨[], []⟩, ⟨[], []⟩⟩ : ScrapeResult).stage4.failed
        = failedParams (((fun _ => []) : List Record → Trace Record Record)
            (⟨⟨[], [], [], []⟩, ⟨[], []⟩, ⟨[], []⟩, ⟨[], []⟩⟩ : ScrapeResult).stage4.items) :=
  scrape_stage_structure ⟨[], [], [], []⟩ [] (fun _ => []) (fun _ => []) (fun _ => [])
    ⟨⟨[], [], [], []⟩, ⟨[], []⟩, ⟨[], []⟩, ⟨[], []⟩⟩ rfl

/-- **C7** counterexample. With one pre-existing row in the `categories`
table and one freshly discovered category, stage 2 processes only the
1 in-memory category, whereas the persisted `categories` table holds
2 records after stage 1's insert: stage 2's WorkItems are *not* the
previous stage's persisted records reloaded from storage. -/
theorem scrape_stage2_in_memory_cex :
    (scrape_ecommerce_site ⟨[[99, 0, 0, 0, 0]], [], [], []⟩
        [[("id", (1 : Int)), ("gender", 0), ("category", 0), ("subcategory", 0),
          ("base_url", 0)]]
        (fun items => items.map (fun it => (it, TaskOutcome.success [])))
        (fun _ => []) (fun _ => [])).map
        (fun r => (r.stage2.items.length,
          (reload CATEGORIES_TABLE r.db.categories).length,
          decide (r.stage2.items = reload CATEGORIES_TABLE r.db.categories)))
      = Except.ok (1, 2, false) := by
  decide

theorem countP_set_of_get? {γ : Type} (p : γ → Bool) (l : List γ) :
    ∀ (i : Nat) (a b : γ), l.get? i = some a →
      (l.set i b).countP p + (if p a then 1 else 0)
        = l.countP p + (if p b then 1 else 0) := by
  induction l with
  | nil => intro i a b h; simp at h
  | cons x xs ih =>
      intro i a b h
      cases i with
      | zero =>
          simp only [List.get?_cons_zero, Option.some.injEq] at h
          subst h
          simp only [List.set_cons_zero, List.countP_cons]
          omega
      | succ n =>
          simp only [List.get?_cons_succ] at h
          have := ih n a b h
          simp only [List.set_cons_succ, List.countP_cons]
          omega

theorem schedStep_preserves (limit n : Nat) (s s' : SchedState)
    (hstep : SchedStep s s')
    (hinv : s.avail + runningCount s = limit ∧ s.phases.length = n) :
    s'.avail + runningCount s' = limit ∧ s'.phases.length = n := by
  obtain ⟨h1, h2⟩ := hinv
  cases hstep with
  | acquire i hi ha =>
      have hc := countP_set_of_get? TaskPhase.isRunning s.phases i .waiting .running hi
      constructor
      · simp only [runningCount, TaskPhase.isRunning] at hc h1 ⊢
        simp at hc
        omega
      · simpa [List.length_set] using h2
  | finish i o hi =>
      have hc := countP_set_of_get? TaskPhase.isRunning s.phases i .running (.done o) hi
      have hpos : 0 < s.phases.countP TaskPhase.isRunning :=
        List.countP_pos_iff.mpr ⟨.running, List.get?_mem hi, rfl⟩
      constructor
      · simp only [runningCount, TaskPhase.isRunning] at hc h1 ⊢
        simp at hc
        omega
      · simpa [List.length_set] using h2

theorem countP_isRunning_replicate_waiting (n : Nat) :
    (List.replicate n TaskPhase.waiting).countP TaskPhase.isRunning = 0 := by
  simp [List.countP_replicate, TaskPhase.isRunning]

theorem sched_reachable_inv (limit n : Nat) (s : SchedState)
    (h : Relation.ReflTransGen SchedStep (initSched limit n) s) :
    s.avail + runningCount s = limit ∧ s.phases.length = n := by
  induction h with
  | refl =>
      constructor
      · simp [initSched, runningCount, countP_isRunning_replicate_waiting]
      · simp [initSched]
  | tail hab hbc ih => exact schedStep_preserves limit n _ _ hbc ih

/-- **C6** (confirmed). In the scheduler model of `make_requests`: one
task per WorkItem exists from the start (scheduling itself is not
throttled — all tasks are created before any completes, none holding a
slot, the semaphore counter at the full `concurrency_limit`); in every
state reachable from that start at most `concurrency_limit` units of
work execute simultaneously (the semaphore counter plus the number of
running units is invariantly `concurrency_limit`); and any step in which
a unit of work finishes — with any outcome: success, retry exhaustion,
or another error — increments the semaphore counter, i.e. releases its
slot unconditionally. -/
theorem concurrency_capped (limit numItems : Nat) (_hlim : 1 ≤ limit)
    (s : SchedState)
    (h : Relation.ReflTransGen SchedStep (initSched limit numItems) s)
    (u u' : SchedState) (hstep : SchedStep u u')
    (hdone : doneCount u' = doneCount u + 1) :
    (initSched limit numItems).phases.length = numItems
    ∧ (initSched limit numItems).avail = limit
    ∧ runningCount s ≤ limit
    ∧ s.phases.length = numItems
    ∧ u'.avail = u.avail + 1 := by
  obtain ⟨hsum, hlen⟩ := sched_reachable_inv limit numItems s h
  refine ⟨by simp [initSched], rfl, by omega, hlen, ?_⟩
  cases hstep with
  | acquire i hi ha =>
      have hc := countP_set_of_get? TaskPhase.isDone u.phases i .waiting .running hi
      simp only [doneCount] at hdone
      simp [TaskPhase.isDone] at hc
      omega
  | finish i o hi =>
      rfl

/-- Witness for the C6 theorem: `concurrency_limit = 1`, two work items,
the initial state itself, and a concrete finish step of a running
task. -/
theorem concurrency_capped_witness :
    (initSched 1 2).phases.length = 2
    ∧ (initSched 1 2).avail = 1
    ∧ runningCount (initSched 1 2) ≤ 1
    ∧ (initSched 1 2).phases.length = 2
    ∧ (⟨[TaskPhase.running].set 0 (TaskPhase.done (TaskOutcome.success [()])),
        0 + 1⟩ : SchedState).avail
        = (⟨[TaskPhase.running], 0⟩ : SchedState).avail + 1 :=
  concurrency_capped 1 2 (by decide) (initSched 1 2) Relation.ReflTransGen.refl
    ⟨[TaskPhase.running], 0⟩
    ⟨[TaskPhase.running].set 0 (TaskPhase.done (TaskOutcome.success [()])), 0 + 1⟩
    (SchedStep.finish ⟨[TaskPhase.running], 0⟩ 0 (TaskOutcome.success [()]) rfl)
    (by decide)

/-- **C9** counterexample. Flattening an input containing a non-list
element raises `ValueError`, whose kind is not `TypeError` — the claim's
"raises a type error" is false at this input. -/
theorem flatten_type_error_cex :
    flatten [PyObj.lst [(1 : Int)], PyObj.nonList]
        = Except.error
            (PyError.valueError "All elements of the input must be of type list.")
    ∧ (PyError.valueError "All elements of the input must be of type list.").isTypeError
        = false := by
  refine ⟨by decide, by decide⟩

end Webscraper
